import Mathlib

/-!
Verification development for the himawari-9-unheckifier compositing pipeline
(src/render_imagery.py and src/render_h9_imagery.py).

Modelling conventions:
* Python floats are modelled as exact rationals.
* NaN, the no-data sentinel, is modelled as `none` in `Option ℚ`; a finite
  value is `some v`.
* NumPy arrays are modelled either as total index functions (`GriddedField`)
  or, where slicing semantics matter, as `NpArray` (shape plus data
  function).
* The external nearest-neighbour resampler (pyresample) and the scene
  loader (satpy) are collaborators: their outputs enter the model as
  parameters. Everything the repository itself computes - grid sizes,
  longitude masks, overflow stitching, compositing, cropping, directory
  filtering, error raising - is translated directly from the source.
-/

/-- Python int() applied to a real quantity: truncation toward zero. -/
def pyInt (q : ℚ) : ℤ := if 0 ≤ q then ⌊q⌋ else ⌈q⌉

/-- A pixel value: `none` models NaN (no data), `some v` a finite value. -/
abbrev Val := Option ℚ

/-- A gridded field, indexed (row, col). -/
abbrev GriddedField := ℕ → ℕ → Val

/-- np.isfinite on a pixel value. -/
def isfinite (v : Val) : Bool := v.isSome

-- Configuration constants of render_imagery.py (lines 42-54).
def resolution : ℚ := 1/10
def LON_MIN_FULL : ℚ := -180
def LAT_MIN_FULL : ℚ := -90
def LON_MAX_FULL : ℚ := 180
def LAT_MAX_FULL : ℚ := 90
def lon_overflow_start : ℚ := 180
def lon_overflow_end : ℚ := 250

-- Full image dimensions (render_imagery.py lines 70-71).
def W_full : ℕ := (pyInt ((LON_MAX_FULL - LON_MIN_FULL) / resolution)).toNat
def H_full : ℕ := (pyInt ((LAT_MAX_FULL - LAT_MIN_FULL) / resolution)).toNat

-- GOES overflow window (render_imagery.py lines 184-187).
def lon_min_B : ℚ := lon_overflow_start - 360
def lon_max_B : ℚ := lon_overflow_end - 360
def W_B : ℕ := (pyInt ((lon_max_B - lon_min_B) / resolution)).toNat

/-- Column-center longitudes of the full grid (render_imagery.py line 218);
this is also the pyresample center longitude of column j for the Himawari
main window, whose extent and width coincide with the full grid. -/
def lon_vals (j : ℕ) : ℚ := LON_MIN_FULL + ((j : ℚ) + 1/2) * resolution

/-- GOES-19 keep-mask: column centers east of 110W (line 222). -/
def lon_mask_g19 (j : ℕ) : Bool := decide (lon_vals j ≥ -110)

/-- GOES-18 keep-mask: column centers west of 110W (line 225). -/
def lon_mask_g18 (j : ℕ) : Bool := decide (lon_vals j ≤ -110)

/-- Himawari keep-mask induced by arr[lon > 180.0] = np.nan (line 120):
a column is kept iff its center longitude is not greater than 180. -/
def h9_keep_mask (j : ℕ) : Bool := decide (¬ lon_vals j > 180)

/-- np.where(np.isfinite(a), a, np.nan): the identity on the Option model. -/
def nan_normalize (arr : GriddedField) : GriddedField := fun i j =>
  match arr i j with
  | some v => some v
  | none => none

/-- The splice arr_full[:, 0:w] = arrB (render_imagery.py lines 206-207,
render_h9_imagery.py line 142). -/
def stitch (arrA arrB : GriddedField) (w : ℕ) : GriddedField := fun i j =>
  if j < w then arrB i j else arrA i j

/-- arr_full[~lon_mask_2d] = np.nan (line 231). -/
def apply_lon_mask (mask : ℕ → Bool) (arr : GriddedField) : GriddedField :=
  fun i j => if mask j then arr i j else none

/-- Pure core of load_and_resample_goes (lines 166-235): arrA and arrB are
the main-window and overflow-window resampler outputs; the overflow is
spliced into the leftmost W_B columns and the 110W cutoff is applied. -/
def goes_field (goes_id : String) (arrA arrB : GriddedField) : GriddedField :=
  nan_normalize
    (apply_lon_mask (if goes_id = "19" then lon_mask_g19 else lon_mask_g18)
      (stitch arrA arrB W_B))

/-- Pure core of load_and_resample_himawari (lines 101-124): a single
main-window resample with centers beyond 180 masked out, NaN-normalized.
No overflow resample or splice occurs in this function. -/
def himawari_field (arr : GriddedField) : GriddedField :=
  nan_normalize (fun i j => if lon_vals j > 180 then none else arr i j)

/-- The composite priority merge (render_imagery.py lines 251-256). -/
def composite (g19_arr h9_arr g18_arr : GriddedField) : GriddedField :=
  fun i j =>
    if isfinite (g19_arr i j) then g19_arr i j
    else if isfinite (h9_arr i j) then h9_arr i j
    else g18_arr i j

/-- First finite value in a priority-ordered list of pixel values. -/
def first_finite (vs : List Val) : Val := vs.findSome? id

-- ─────────── render_h9_imagery.py (standalone Himawari script) ───────────

/-- Resolution of render_h9_imagery.py (line 36): 0.07 degrees per pixel. -/
def resolution_h9 : ℚ := 7/100

/-- Overflow width of render_h9_imagery.py (lines 111-116):
int(((225-360) - (180-360)) / 0.07). -/
def W_B_h9 : ℕ := (pyInt (((225 - 360 : ℚ) - (180 - 360)) / resolution_h9)).toNat

/-- ir_final (render_h9_imagery.py lines 137-142): the standalone Himawari
script does splice the overflow resample into the leftmost columns. -/
def ir_final (irA irB : GriddedField) : GriddedField := stitch irA irB W_B_h9

-- ─────────── directory discovery and error propagation ───────────

/-- Does the character list start with the pattern list. -/
def startsWithChars : List Char → List Char → Bool
  | _, [] => true
  | [], _ :: _ => false
  | c :: cs, p :: ps => c == p && startsWithChars cs ps

/-- Does the character list contain the pattern list as a contiguous run. -/
def hasSubChars : List Char → List Char → Bool
  | [], pat => startsWithChars [] pat
  | c :: cs, pat => startsWithChars (c :: cs) pat || hasSubChars cs pat

/-- Python's substring test `pat in s`. -/
def str_contains (s pat : String) : Bool := hasSubChars s.data pat.data

/-- Himawari directory filter (render_imagery.py lines 85-88): directory
names of length 13 with an underscore at index 8 (the isdir test is
modelled by taking the input to be the list of subdirectory names). -/
def valid_h9_dirs (dirs : List String) : List String :=
  dirs.filter (fun d => d.length == 13 && d.data.getD 8 ' ' == '_')

/-- GOES directory filter (lines 143-145): length 12, underscore at 7. -/
def valid_goes_dirs (dirs : List String) : List String :=
  dirs.filter (fun d => d.length == 12 && d.data.getD 7 ' ' == '_')

/-- GOES file filter (line 155): files containing "C13" and "_G{id}_". -/
def goes_c13_files (goes_id : String) (files : List String) : List String :=
  files.filter (fun f =>
    str_contains f "C13" && str_contains f ("_G" ++ goes_id ++ "_"))

/-- Latest directory: Python max over the timestamp key; for the
fixed-width zero-padded timestamp names the chronological order coincides
with the lexicographic order on the names (strptime validation of
malformed names is not modelled; no theorem depends on the choice). -/
def latest_of (l : List String) : String :=
  l.foldl (fun a b => if a < b then b else a) ""

/-- load_and_resample_himawari (lines 77-124): raises ValueError when no
valid timestamp directory exists (lines 89-90); otherwise produces the
masked main-window resample. The resampled array is the external
scene-loading collaborator's output, passed as a parameter. -/
def load_and_resample_himawari (base_dir : String) (dirs : List String)
    (arr : GriddedField) : Except String GriddedField :=
  if valid_h9_dirs dirs = [] then
    Except.error ("No valid directories found in " ++ base_dir)
  else Except.ok (himawari_field arr)

/-- load_and_resample_goes (lines 127-235): raises ValueError when no valid
timestamp directory or no matching C13 file exists (lines 147-148, 156-157);
otherwise produces the stitched and masked field. -/
def load_and_resample_goes (base_dir goes_id : String)
    (dirs files : List String) (arrA arrB : GriddedField) :
    Except String GriddedField :=
  if valid_goes_dirs dirs = [] then
    Except.error ("No valid directories found in " ++ base_dir)
  else if goes_c13_files goes_id files = [] then
    Except.error ("No C13 files found for GOES-" ++ goes_id ++ " in "
      ++ base_dir ++ "/" ++ latest_of (valid_goes_dirs dirs))
  else Except.ok (goes_field goes_id arrA arrB)

/-- Module-level flow of render_imagery.py (lines 241-256): the three
satellites are loaded in order with no exception handling, then
composited; an uncaught exception aborts the whole run. -/
def render_pipeline (h9_dirs g19_dirs g19_files g18_dirs g18_files : List String)
    (h9_main g19A g19B g18A g18B : GriddedField) :
    Except String GriddedField := do
  let h9_arr ← load_and_resample_himawari "himawari9_raw" h9_dirs h9_main
  let g19_arr ← load_and_resample_goes "goes-19_raw" "19" g19_dirs g19_files g19A g19B
  let g18_arr ← load_and_resample_goes "goes-18_raw" "18" g18_dirs g18_files g18A g18B
  Except.ok (composite g19_arr h9_arr g18_arr)

-- ─────────── NumPy arrays with shape, slicing and cropping ───────────

/-- A NumPy 2-D array: shape plus data (reads outside the shape are
unconstrained but total). -/
structure NpArray where
  height : ℕ
  width : ℕ
  data : GriddedField

/-- NumPy basic-slice boundary normalization for an axis of length n:
negative indices count from the end, then the result is clamped to
[0, n]. -/
def npIdx (n : ℕ) (i : ℤ) : ℕ :=
  (min (max (if i < 0 then i + n else i) 0) (n : ℤ)).toNat

/-- a[r0:r1, :] -/
def slice_rows (a : NpArray) (r0 r1 : ℤ) : NpArray :=
  ⟨npIdx a.height r1 - npIdx a.height r0, a.width,
    fun i j => a.data (npIdx a.height r0 + i) j⟩

/-- a[:, c0:c1] -/
def slice_cols (a : NpArray) (c0 c1 : ℤ) : NpArray :=
  ⟨a.height, npIdx a.width c1 - npIdx a.width c0,
    fun i j => a.data i (npIdx a.width c0 + j)⟩

/-- np.hstack([a, b]) for arrays of equal height. -/
def hstack (a b : NpArray) : NpArray :=
  ⟨a.height, a.width + b.width,
    fun i j => if j < a.width then a.data i j else b.data i (j - a.width)⟩

/-- wrap_lon (render_imagery.py lines 266-271). -/
def wrap_lon (lon : ℚ) : ℚ :=
  if lon > 180 then lon - 360 else if lon < -180 then lon + 360 else lon

/-- Row index of the top of the crop (line 275), after the latitude clamp
of line 264. -/
def row_start (lat_max_crop : ℚ) : ℤ :=
  pyInt ((LAT_MAX_FULL - min lat_max_crop LAT_MAX_FULL) / resolution)

/-- Row index of the bottom of the crop (line 276), after the latitude
clamp of line 263. -/
def row_end (lat_min_crop : ℚ) : ℤ :=
  pyInt ((LAT_MAX_FULL - max lat_min_crop LAT_MIN_FULL) / resolution)

/-- Column index of a longitude (lines 279-280, 287-288, 293-294). -/
def col_of (lon : ℚ) : ℤ := pyInt ((lon - LON_MIN_FULL) / resolution)

/-- The crop of render_imagery.py section 4 (lines 263-298) as a function
of the configured crop bounds. In the non-wrapping branch a single column
range is taken; otherwise part1 = [lon_min_crop, 180] columns and
part2 = [wrap_lon(max(lon_min_crop, 180)), wrap_lon(lon_max_crop)] columns
are concatenated horizontally. -/
def arr_crop (comp : NpArray)
    (lon_min_crop lon_max_crop lat_min_crop lat_max_crop : ℚ) : NpArray :=
  if lon_min_crop ≥ -180 ∧ lon_max_crop ≤ 180 then
    slice_cols (slice_rows comp (row_start lat_max_crop) (row_end lat_min_crop))
      (col_of lon_min_crop) (col_of lon_max_crop)
  else
    hstack
      (slice_cols (slice_rows comp (row_start lat_max_crop) (row_end lat_min_crop))
        (col_of lon_min_crop) (col_of 180))
      (slice_cols (slice_rows comp (row_start lat_max_crop) (row_end lat_min_crop))
        (col_of (wrap_lon (max lon_min_crop 180))) (col_of (wrap_lon lon_max_crop)))

-- ─────────── GridSpec (spec section 3) ───────────

/-- GridSpec, with width and height derived the way the source derives
them: Python int() of span/resolution (render_imagery.py lines 70-71, 186;
render_h9_imagery.py lines 49-50, 116). -/
structure GridSpec where
  lon_min : ℚ
  lat_min : ℚ
  lon_max : ℚ
  lat_max : ℚ
  resolution : ℚ

def GridSpec.width (g : GridSpec) : ℤ :=
  pyInt ((g.lon_max - g.lon_min) / g.resolution)

def GridSpec.height (g : GridSpec) : ℤ :=
  pyInt ((g.lat_max - g.lat_min) / g.resolution)

/-- Center longitude of column j (spec section 3, and the pyresample
convention used by every AreaDefinition in the source). -/
def GridSpec.lonCenter (g : GridSpec) (j : ℕ) : ℚ :=
  g.lon_min + ((j : ℚ) + 1/2) * g.resolution

/-- Center latitude of row i, row 0 northernmost (spec section 3, and the
pyresample convention used by every AreaDefinition in the source). -/
def GridSpec.latCenter (g : GridSpec) (i : ℕ) : ℚ :=
  g.lat_max - ((i : ℚ) + 1/2) * g.resolution

/-- The full Plate Carree grid of render_imagery.py. -/
def fullGridSpec : GridSpec :=
  ⟨LON_MIN_FULL, LAT_MIN_FULL, LON_MAX_FULL, LAT_MAX_FULL, resolution⟩

/-- The GOES overflow window of render_imagery.py (lines 189-197). -/
def goesOverflowGridSpec : GridSpec :=
  ⟨lon_min_B, LAT_MIN_FULL, lon_max_B, LAT_MAX_FULL, resolution⟩

/-- The full grid of render_h9_imagery.py (resolution 0.07). -/
def h9FullGridSpec : GridSpec := ⟨-180, -90, 180, 90, resolution_h9⟩

-- ─────────── concrete test fixtures ───────────

/-- A main-window resample whose every pixel is 1. -/
def mainTest : GriddedField := fun _ _ => some 1

/-- An overflow-window resample whose every pixel is 2. -/
def overflowTest : GriddedField := fun _ _ => some 2

/-- A composite-shaped array whose every pixel is 250. -/
def constComp : NpArray := ⟨H_full, W_full, fun _ _ => some 250⟩

def g19_dirs_ok : List String := ["2025280_0000"]
def g19_files_ok : List String := ["OR_ABI-L1b-RadF-M6C13_G19_s20252800000000.nc"]
def g18_dirs_ok : List String := ["2025280_0000"]
def g18_files_ok : List String := ["OR_ABI-L1b-RadF-M6C13_G18_s20252800000000.nc"]

-- ─────────── helper lemmas ───────────

theorem W_full_eq : W_full = 3600 := by
  norm_num [W_full, pyInt, LON_MAX_FULL, LON_MIN_FULL, resolution]
  rfl

theorem H_full_eq : H_full = 1800 := by
  norm_num [H_full, pyInt, LAT_MAX_FULL, LAT_MIN_FULL, resolution]
  rfl

theorem W_B_eq : W_B = 700 := by
  norm_num [W_B, pyInt, lon_max_B, lon_min_B, lon_overflow_start,
    lon_overflow_end, resolution]
  rfl

theorem W_B_h9_eq : W_B_h9 = 642 := by
  norm_num [W_B_h9, pyInt, resolution_h9]
  rfl

theorem lon_mask_g19_iff (j : ℕ) : lon_mask_g19 j = true ↔ 700 ≤ j := by
  unfold lon_mask_g19 lon_vals LON_MIN_FULL resolution
  simp only [ge_iff_le, decide_eq_true_eq]
  constructor
  · intro h
    by_contra hc
    push_neg at hc
    have hj : (j : ℚ) ≤ 699 := by exact_mod_cast Nat.le_of_lt_succ hc
    linarith
  · intro h
    have hj : (700 : ℚ) ≤ (j : ℚ) := by exact_mod_cast h
    linarith

theorem lon_mask_g18_iff (j : ℕ) : lon_mask_g18 j = true ↔ j < 700 := by
  unfold lon_mask_g18 lon_vals LON_MIN_FULL resolution
  simp only [decide_eq_true_eq]
  constructor
  · intro h
    by_contra hc
    push_neg at hc
    have hj : (700 : ℚ) ≤ (j : ℚ) := by exact_mod_cast hc
    linarith
  · intro h
    have hj : (j : ℚ) ≤ 699 := by exact_mod_cast Nat.le_of_lt_succ h
    linarith

theorem h9_keep_mask_iff (j : ℕ) : h9_keep_mask j = true ↔ j < 3600 := by
  unfold h9_keep_mask lon_vals LON_MIN_FULL resolution
  simp only [gt_iff_lt, decide_eq_true_eq, not_lt]
  constructor
  · intro h
    by_contra hc
    push_neg at hc
    have hj : (3600 : ℚ) ≤ (j : ℚ) := by exact_mod_cast hc
    linarith
  · intro h
    have hj : (j : ℚ) ≤ 3599 := by exact_mod_cast Nat.le_of_lt_succ h
    linarith

/-- int() truncation of a nonnegative quotient brackets the span within
one resolution step. -/
theorem pyInt_div_bounds (span res : ℚ) (hr : 0 < res) (hs : 0 ≤ span) :
    span - res < (pyInt (span / res) : ℚ) * res ∧
    (pyInt (span / res) : ℚ) * res ≤ span := by
  have hq : (0 : ℚ) ≤ span / res := div_nonneg hs hr.le
  have hfl : pyInt (span / res) = ⌊span / res⌋ := by
    unfold pyInt
    exact if_pos hq
  rw [hfl]
  have h1 : ((⌊span / res⌋ : ℤ) : ℚ) ≤ span / res := Int.floor_le _
  have h2 : span / res - 1 < ((⌊span / res⌋ : ℤ) : ℚ) := Int.sub_one_lt_floor _
  have hcancel : span / res * res = span := div_mul_cancel₀ _ (ne_of_gt hr)
  constructor
  · have h3 := mul_lt_mul_of_pos_right h2 hr
    rw [sub_mul, one_mul, hcancel] at h3
    linarith
  · have h3 := mul_le_mul_of_nonneg_right h1 hr.le
    rw [hcancel] at h3
    linarith

-- ─────────── C1: composite priority scan ───────────

/-- C1: for every grid cell, the composite value is the first finite value
in the fixed priority order GOES-19, Himawari-9, GOES-18; if all three are
no-data at that cell this first_finite is none, so the composite cell is
no-data. -/
theorem composite_is_priority_scan (g19_arr h9_arr g18_arr : GriddedField)
    (i j : ℕ) :
    composite g19_arr h9_arr g18_arr i j
      = first_finite [g19_arr i j, h9_arr i j, g18_arr i j] := by
  unfold composite first_finite isfinite
  rcases hg : g19_arr i j with _ | v <;>
    rcases hh : h9_arr i j with _ | w <;>
    rcases hk : g18_arr i j with _ | u <;>
    simp [List.findSome?, hg, hh, hk]

-- ─────────── C2: ownership masks (corrected) ───────────

/-- C2 counterexample: the per-satellite masks actually applied are not
mutually exclusive: column 0 is kept both by the Himawari-9 mask and by
the GOES-18 mask (indeed the Himawari-9 mask keeps every grid column). -/
theorem zones_not_exclusive_counterexample :
    ¬ (∀ j, j < W_full →
        ¬ (h9_keep_mask j = true ∧ lon_mask_g19 j = true) ∧
        ¬ (h9_keep_mask j = true ∧ lon_mask_g18 j = true)) := by
  intro hall
  have h0 : (0 : ℕ) < W_full := by rw [W_full_eq]; norm_num
  exact (hall 0 h0).2
    ⟨(h9_keep_mask_iff 0).mpr (by norm_num),
     (lon_mask_g18_iff 0).mpr (by norm_num)⟩

/-- C2 amended: the two GOES masks are mutually exclusive and their union
is the entire grid (GOES-19 keeps exactly columns 700 and beyond, GOES-18
exactly columns before 700, each a contiguous arc containing the column of
its own sub-satellite longitude: -75.2 falls in column 1048 and -136.9 in
column 431); the Himawari-9 mask keeps every column (hence contains the
column 3207 of 140.7 and makes the union total, but overlaps both GOES
masks, so the three masks together are not mutually exclusive). -/
theorem zones_masks_amended :
    (∀ j, j < W_full →
      h9_keep_mask j = true ∧
      (lon_mask_g19 j = true ↔ 700 ≤ j) ∧
      (lon_mask_g18 j = true ↔ j < 700) ∧
      (lon_mask_g19 j = true ∨ lon_mask_g18 j = true) ∧
      ¬ (lon_mask_g19 j = true ∧ lon_mask_g18 j = true)) ∧
    lon_mask_g19 1048 = true ∧ lon_mask_g18 431 = true ∧
    h9_keep_mask 3207 = true := by
  refine ⟨fun j hj => ?_, ?_, ?_, ?_⟩
  · rw [W_full_eq] at hj
    refine ⟨(h9_keep_mask_iff j).mpr hj, lon_mask_g19_iff j,
      lon_mask_g18_iff j, ?_, ?_⟩
    · rw [lon_mask_g19_iff, lon_mask_g18_iff]
      omega
    · rintro ⟨h1, h2⟩
      rw [lon_mask_g19_iff] at h1
      rw [lon_mask_g18_iff] at h2
      omega
  · exact (lon_mask_g19_iff 1048).mpr (by norm_num)
  · exact (lon_mask_g18_iff 431).mpr (by norm_num)
  · exact (h9_keep_mask_iff 3207).mpr (by norm_num)

/-- Witness for the amended C2 at column 0. -/
theorem zones_masks_amended_witness :
    h9_keep_mask 0 = true ∧ (lon_mask_g18 0 = true ↔ 0 < 700) := by
  have h := zones_masks_amended.1 0 (by rw [W_full_eq]; norm_num)
  exact ⟨h.1, h.2.2.1⟩

-- ─────────── C3: overflow stitching (code bug for Himawari) ───────────

/-- C3: in the composite pipeline the Himawari-9 field is not produced by
splicing an overflow resample: at cell (0, 0) - a column inside the
overflow region - the Himawari field keeps the main-window value 1, while
the splice used for the GOES satellites (and by the standalone
render_h9_imagery.py script in ir_final) would put the overflow value 2
there. This contradicts load_and_resample_himawari's own docstring, which
claims the 180-to-225E overflow stitching is done. -/
theorem himawari_field_ignores_overflow :
    himawari_field mainTest 0 0 = some 1 ∧
    stitch mainTest overflowTest W_B 0 0 = some 2 ∧
    ir_final mainTest overflowTest 0 0 = some 2 ∧
    goes_field "19" mainTest overflowTest 0 0 = none ∧
    goes_field "18" mainTest overflowTest 0 0 = some 2 := by
  have hlon : ¬ (lon_vals 0 > 180) := by
    norm_num [lon_vals, LON_MIN_FULL, resolution]
  have hWB : (0 : ℕ) < W_B := by rw [W_B_eq]; norm_num
  have hWBh9 : (0 : ℕ) < W_B_h9 := by rw [W_B_h9_eq]; norm_num
  have hg19 : lon_mask_g19 0 = false := by
    rw [Bool.eq_false_iff, Ne, lon_mask_g19_iff]
    omega
  have hg18 : lon_mask_g18 0 = true := (lon_mask_g18_iff 0).mpr (by norm_num)
  refine ⟨?_, ?_, ?_, ?_, ?_⟩
  · simp [himawari_field, nan_normalize, mainTest, hlon]
  · simp [stitch, overflowTest, hWB]
  · simp [ir_final, stitch, overflowTest, hWBh9]
  · simp [goes_field, nan_normalize, apply_lon_mask, stitch, hg19]
  · simp [goes_field, nan_normalize, apply_lon_mask, stitch, overflowTest,
      hg18, hWB]

-- ─────────── C4: zone boundaries (corrected) ───────────

/-- C4 counterexample: the boundary between GOES-19 and GOES-18 is not at
the circular midpoint (-75.2 + -136.9)/2 = -106.05 of their sub-satellite
longitudes: column 720 has center longitude -107.95, strictly west of that
midpoint, yet it is kept by the GOES-19 mask and masked out of GOES-18. -/
theorem midpoint_boundary_counterexample :
    lon_vals 720 < (-75.2 + -136.9) / 2 ∧
    lon_mask_g19 720 = true ∧ lon_mask_g18 720 = false := by
  refine ⟨by norm_num [lon_vals, LON_MIN_FULL, resolution],
    (lon_mask_g19_iff 720).mpr (by norm_num), ?_⟩
  rw [Bool.eq_false_iff, Ne, lon_mask_g18_iff]
  omega

/-- C4 amended: the zone boundary between GOES-19 and GOES-18 is the
hardcoded cutoff -110 (GOES-19 keeps centers at or east of -110, GOES-18
centers at or west of it, and the cut falls between columns 699 and 700),
which differs from the circular midpoint -106.05 of the sub-satellite
longitudes; and there is no Himawari/GOES-18 boundary near -178.6 at all,
because the Himawari-9 mask keeps every grid column. -/
theorem goes_cutoff_at_minus_110 :
    (∀ j : ℕ, lon_mask_g19 j = true ↔ -110 ≤ lon_vals j) ∧
    (∀ j : ℕ, lon_mask_g18 j = true ↔ lon_vals j ≤ -110) ∧
    lon_vals 699 < -110 ∧ -110 < lon_vals 700 ∧
    ((-110 : ℚ) ≠ (-75.2 + -136.9) / 2) ∧
    (∀ j, j < W_full → h9_keep_mask j = true) := by
  refine ⟨fun j => ?_, fun j => ?_, ?_, ?_, ?_, fun j hj => ?_⟩
  · simp [lon_mask_g19, ge_iff_le]
  · simp [lon_mask_g18]
  · norm_num [lon_vals, LON_MIN_FULL, resolution]
  · norm_num [lon_vals, LON_MIN_FULL, resolution]
  · norm_num
  · exact (h9_keep_mask_iff j).mpr (by rw [W_full_eq] at hj; exact hj)

/-- Witness for the amended C4 at column 0. -/
theorem goes_cutoff_at_minus_110_witness : h9_keep_mask 0 = true :=
  goes_cutoff_at_minus_110.2.2.2.2.2 0 (by rw [W_full_eq]; norm_num)

-- ─────────── C5: wrap-around cropping (code bug) ───────────

/-- C5: a crop request straddling the antimeridian (170 eastward to -170,
expressed as lon_max_crop = 190) does not return the claimed 100 + 100
columns: wrap_lon(max(170, 180)) = 180 makes part2 the empty slice
[3600:100], so the east-of-antimeridian columns [-180, -170] are dropped
and only the 100 columns of [170, 180] are returned. -/
theorem crop_wrap_drops_east_columns :
    (arr_crop constComp 170 190 (-90) 90).width = 100 ∧
    (arr_crop constComp 170 190 (-90) 90).width ≠ 100 + 100 := by
  have hcond : ¬ ((170 : ℚ) ≥ -180 ∧ (190 : ℚ) ≤ 180) := by norm_num
  have h1 : col_of 170 = 3500 := by
    norm_num [col_of, pyInt, LON_MIN_FULL, resolution]
  have h2 : col_of 180 = 3600 := by
    norm_num [col_of, pyInt, LON_MIN_FULL, resolution]
  have h3 : col_of (wrap_lon (max (170 : ℚ) 180)) = 3600 := by
    norm_num [wrap_lon, col_of, pyInt, LON_MIN_FULL, resolution]
  have h4 : col_of (wrap_lon (190 : ℚ)) = 100 := by
    norm_num [wrap_lon, col_of, pyInt, LON_MIN_FULL, resolution]
  have hwidth : (arr_crop constComp 170 190 (-90) 90).width = 100 := by
    simp only [arr_crop, if_neg hcond, hstack, slice_cols, slice_rows,
      constComp, h1, h2, h3, h4, W_full_eq]
    norm_num [npIdx]
    rfl
  exact ⟨hwidth, by rw [hwidth]; norm_num⟩

-- ─────────── C6: error propagation (corrected) ───────────

/-- C6 counterexample: with no valid Himawari-9 timestamp directory but
perfectly valid GOES-18/19 inputs (each of which loads successfully on its
own), the pipeline returns the Himawari ValueError instead of a composite
built from an all-no-data Himawari field: the failure of one satellite
aborts the whole composite. -/
theorem pipeline_aborts_on_himawari_failure :
    render_pipeline [] g19_dirs_ok g19_files_ok g18_dirs_ok g18_files_ok
        mainTest mainTest overflowTest mainTest overflowTest
      = Except.error "No valid directories found in himawari9_raw" ∧
    load_and_resample_goes "goes-19_raw" "19" g19_dirs_ok g19_files_ok
        mainTest overflowTest
      = Except.ok (goes_field "19" mainTest overflowTest) ∧
    load_and_resample_goes "goes-18_raw" "18" g18_dirs_ok g18_files_ok
        mainTest overflowTest
      = Except.ok (goes_field "18" mainTest overflowTest) := by
  refine ⟨rfl, ?_, ?_⟩ <;> rfl

/-- C6 amended: when loading one satellite fails (here: no directory
matching the Himawari-9 timestamp name format), the pipeline does abort
the whole composite: the ValueError propagates uncaught, and no
all-no-data substitution or warning happens. -/
theorem pipeline_error_propagation (h9_dirs : List String)
    (h : valid_h9_dirs h9_dirs = [])
    (g19_dirs g19_files g18_dirs g18_files : List String)
    (fA fB fC fD fE : GriddedField) :
    render_pipeline h9_dirs g19_dirs g19_files g18_dirs g18_files fA fB fC fD fE
      = Except.error "No valid directories found in himawari9_raw" := by
  unfold render_pipeline load_and_resample_himawari
  rw [h]
  rfl

/-- Witness for the amended C6. -/
theorem pipeline_error_propagation_witness :
    render_pipeline [] [] [] [] [] mainTest mainTest mainTest mainTest mainTest
      = Except.error "No valid directories found in himawari9_raw" :=
  pipeline_error_propagation [] rfl [] [] [] []
    mainTest mainTest mainTest mainTest mainTest

-- ─────────── C7: GridSpec dimensions (corrected) ───────────

/-- C7 counterexample: the source derives width by int() truncation, not
rounding: for the repository's own render_h9_imagery.py grid (resolution
0.07) the derived width is 5142 while round(360/0.07) = 5143; likewise its
overflow window gets 642 columns while round(45/0.07) = 643. -/
theorem gridspec_round_counterexample :
    h9FullGridSpec.width = 5142 ∧
    round ((h9FullGridSpec.lon_max - h9FullGridSpec.lon_min)
      / h9FullGridSpec.resolution) = 5143 ∧
    W_B_h9 = 642 ∧ round ((45 : ℚ) / resolution_h9) = 643 := by
  refine ⟨?_, ?_, W_B_h9_eq, ?_⟩
  · norm_num [GridSpec.width, h9FullGridSpec, pyInt, resolution_h9]
  · norm_num [h9FullGridSpec, resolution_h9, round_eq]
  · norm_num [resolution_h9, round_eq]

/-- C7 amended: width and height are derived by int() truncation of
span/resolution, which always keeps width*resolution (resp. height) within
one pixel of the longitude (resp. latitude) span; pixel centers map to
lon_min + (col+0.5)*resolution and lat_max - (row+0.5)*resolution with row
0 northernmost (latCenter strictly decreasing in the row); and for the
composite pipeline's grids (resolution 0.1, where the division is exact)
the truncated width and height agree with round(span/resolution). -/
theorem gridspec_dims_amended (g : GridSpec) (hres : 0 < g.resolution)
    (hlon : g.lon_min ≤ g.lon_max) (hlat : g.lat_min ≤ g.lat_max) :
    ((g.lon_max - g.lon_min) - g.resolution < (g.width : ℚ) * g.resolution
      ∧ (g.width : ℚ) * g.resolution ≤ g.lon_max - g.lon_min)
    ∧ ((g.lat_max - g.lat_min) - g.resolution < (g.height : ℚ) * g.resolution
      ∧ (g.height : ℚ) * g.resolution ≤ g.lat_max - g.lat_min)
    ∧ (∀ j : ℕ, g.lonCenter j = g.lon_min + ((j : ℚ) + 1/2) * g.resolution)
    ∧ (∀ i : ℕ, g.latCenter (i + 1) < g.latCenter i)
    ∧ (∀ j : ℕ, lon_vals j = fullGridSpec.lonCenter j)
    ∧ fullGridSpec.width = 3600 ∧ fullGridSpec.height = 1800
    ∧ round ((fullGridSpec.lon_max - fullGridSpec.lon_min)
        / fullGridSpec.resolution) = 3600
    ∧ round ((fullGridSpec.lat_max - fullGridSpec.lat_min)
        / fullGridSpec.resolution) = 1800
    ∧ goesOverflowGridSpec.width = 700
    ∧ round ((goesOverflowGridSpec.lon_max - goesOverflowGridSpec.lon_min)
        / goesOverflowGridSpec.resolution) = 700
    ∧ (W_full : ℤ) = fullGridSpec.width
    ∧ (H_full : ℤ) = fullGridSpec.height
    ∧ (W_B : ℤ) = goesOverflowGridSpec.width := by
  refine ⟨pyInt_div_bounds _ _ hres (by linarith),
    pyInt_div_bounds _ _ hres (by linarith),
    fun j => rfl, fun i => ?_, fun j => ?_, ?_, ?_, ?_, ?_, ?_, ?_, ?_, ?_, ?_⟩
  · unfold GridSpec.latCenter
    push_cast
    have h : ((i : ℚ) + 1/2) * g.resolution < ((i : ℚ) + 1 + 1/2) * g.resolution := by
      have := mul_lt_mul_of_pos_right
        (show (i : ℚ) + 1/2 < (i : ℚ) + 1 + 1/2 by linarith) hres
      linarith
    linarith
  · simp [lon_vals, GridSpec.lonCenter, fullGridSpec]
  · norm_num [GridSpec.width, fullGridSpec, pyInt, LON_MIN_FULL,
      LON_MAX_FULL, resolution]
  · norm_num [GridSpec.height, fullGridSpec, pyInt, LAT_MIN_FULL,
      LAT_MAX_FULL, resolution]
  · norm_num [fullGridSpec, LON_MIN_FULL, LON_MAX_FULL, resolution, round_eq]
  · norm_num [fullGridSpec, LAT_MIN_FULL, LAT_MAX_FULL, resolution, round_eq]
  · norm_num [GridSpec.width, goesOverflowGridSpec, pyInt, lon_min_B,
      lon_max_B, lon_overflow_start, lon_overflow_end, resolution]
  · norm_num [goesOverflowGridSpec, lon_min_B, lon_max_B,
      lon_overflow_start, lon_overflow_end, resolution, round_eq]
  · rw [W_full_eq]
    norm_num [GridSpec.width, fullGridSpec, pyInt, LON_MIN_FULL,
      LON_MAX_FULL, resolution]
  · rw [H_full_eq]
    norm_num [GridSpec.height, fullGridSpec, pyInt, LAT_MIN_FULL,
      LAT_MAX_FULL, resolution]
  · rw [W_B_eq]
    norm_num [GridSpec.width, goesOverflowGridSpec, pyInt, lon_min_B,
      lon_max_B, lon_overflow_start, lon_overflow_end, resolution]

/-- Witness for the amended C7 at the full composite grid. -/
theorem gridspec_dims_amended_witness :
    (fullGridSpec.width : ℚ) * fullGridSpec.resolution
      ≤ fullGridSpec.lon_max - fullGridSpec.lon_min ∧
    fullGridSpec.width = 3600 := by
  have h := gridspec_dims_amended fullGridSpec
    (by norm_num [fullGridSpec, resolution])
    (by norm_num [fullGridSpec, LON_MIN_FULL, LON_MAX_FULL])
    (by norm_num [fullGridSpec, LAT_MIN_FULL, LAT_MAX_FULL])
  exact ⟨h.1.2, h.2.2.2.2.2.1⟩

-- ─────────── C8: full-extent crop is the identity ───────────

/-- C8: cropping with the full grid extent returns the composite
unchanged: same shape and the same value in every cell. -/
theorem crop_full_extent_identity (comp : NpArray)
    (hh : comp.height = H_full) (hw : comp.width = W_full) :
    (arr_crop comp (-180) 180 (-90) 90).height = comp.height ∧
    (arr_crop comp (-180) 180 (-90) 90).width = comp.width ∧
    ∀ i j, (arr_crop comp (-180) 180 (-90) 90).data i j = comp.data i j := by
  have hcond : ((-180 : ℚ) ≥ -180 ∧ (180 : ℚ) ≤ 180) := by norm_num
  have hr0 : row_start 90 = 0 := by
    norm_num [row_start, pyInt, LAT_MAX_FULL, resolution]
  have hr1 : row_end (-90) = 1800 := by
    norm_num [row_end, pyInt, LAT_MAX_FULL, LAT_MIN_FULL, resolution]
  have hc0 : col_of (-180) = 0 := by
    norm_num [col_of, pyInt, LON_MIN_FULL, resolution]
  have hc1 : col_of 180 = 3600 := by
    norm_num [col_of, pyInt, LON_MIN_FULL, resolution]
  refine ⟨?_, ?_, fun i j => ?_⟩ <;>
    simp only [arr_crop, if_pos hcond, hr0, hr1, hc0, hc1, slice_rows,
      slice_cols, hh, hw, W_full_eq, H_full_eq] <;>
    norm_num [npIdx] <;> try rfl

/-- Witness for C8 on a concrete composite-shaped array. -/
theorem crop_full_extent_identity_witness :
    (arr_crop constComp (-180) 180 (-90) 90).width = constComp.width ∧
    (arr_crop constComp (-180) 180 (-90) 90).data 0 0 = constComp.data 0 0 := by
  have h := crop_full_extent_identity constComp rfl rfl
  exact ⟨h.2.1, h.2.2 0 0⟩

-- ─────────── C9: stitching is idempotent ───────────

/-- C9: overwriting the leftmost w columns of a main field with the same
overflow field twice yields exactly the same result as doing it once. -/
theorem stitch_idempotent (main ov : GriddedField) (w : ℕ) :
    stitch (stitch main ov w) ov w = stitch main ov w := by
  funext i j
  unfold stitch
  by_cases h : j < w <;> simp [h]

-- ─────────── C10: the two GOES masks are exact complements ───────────

/-- C10: no column center of the full grid equals -110 exactly, so the
GOES-19 and GOES-18 keep-masks are exact complements: every grid column is
kept by exactly one of the two, with no gap and no double coverage. -/
theorem goes_masks_exact_complements (j : ℕ) (hj : j < W_full) :
    lon_vals j ≠ -110 ∧ (lon_mask_g19 j = true ↔ lon_mask_g18 j = false) := by
  constructor
  · intro h
    unfold lon_vals LON_MIN_FULL resolution at h
    have h2 : (j : ℚ) * 2 = 1399 := by linarith
    have h3 : (j : ℤ) * 2 = 1399 := by exact_mod_cast h2
    omega
  · rw [lon_mask_g19_iff, Bool.eq_false_iff, Ne, lon_mask_g18_iff]
    omega

/-- Witness for C10 at column 0. -/
theorem goes_masks_exact_complements_witness :
    lon_vals 0 ≠ -110 ∧ (lon_mask_g19 0 = true ↔ lon_mask_g18 0 = false) :=
  goes_masks_exact_complements 0 (by rw [W_full_eq]; norm_num)
